import Mathlib

/-!
Verification of the BrickByBrick brick-packing engine
(`src/backend/app/services/master_builder.py`) against its specification.

The Python service is shallowly embedded: dataclasses become structures,
Python `set`s become duplicate-free lists (all the code's set operations are
membership tests, subset tests, differences and element insertion, none of
which depend on iteration order), `dict`s keyed by integers become functions
with pointwise update, machine integers become `Int`/`Nat` (Python integers
are unbounded, so no wrap-around modelling is needed), and the floating point
millimetre scale factors become exact rationals.  Fallible paths return
`Except`.
-/

namespace BrickByBrick

/-- Model of the dataclass `PlacedBrick` (master_builder.py lines 42-49):
part id, stud-grid position `(x, y, z)`, rotation in degrees, Rebrickable
colour id, and the availability-verification flag. -/
structure PlacedBrick where
  part_id : String
  position : Int × Int × Int
  rotation : Nat
  color_id : Nat
  is_verified : Bool
deriving DecidableEq

/-- Model of `MasterBuilder._get_rectangular_positions` (lines 489-497): the
2D stud cells `[x, x+width) × [y, y+height)` a rectangular footprint covers. -/
def getRectangularPositions (start_x start_y : Int) (width height : Nat) :
    List (Int × Int) :=
  (List.range width).flatMap fun dx =>
    (List.range height).map fun dy =>
      (start_x + Int.ofNat dx, start_y + Int.ofNat dy)

/-- Model of `MasterBuilder._get_brick_occupied_positions` (lines 499-508):
the 3D stud cells a brick occupies, all on layer `z`. -/
def getBrickOccupiedPositions (position : Int × Int × Int)
    (width height : Nat) (z : Int) : List (Int × Int × Int) :=
  (List.range width).flatMap fun dx =>
    (List.range height).map fun dy =>
      (position.1 + Int.ofNat dx, position.2.1 + Int.ofNat dy, z)

/-- Model of `MasterBuilder._get_rotated_dimensions` (lines 510-516):
rotations of 90 or 270 degrees swap width and height. -/
def getRotatedDimensions (width height : Nat) (rotation : Nat) : Nat × Nat :=
  if rotation = 90 ∨ rotation = 270 then (height, width) else (width, height)

/-- Mutable builder state relevant to packing, as initialised by
`MasterBuilder.__init__` (lines 131-169): the placements vector, the 3D
occupied-cell set, the per-layer brick lists and the per-layer seam column
sets.  Python sets are modelled as lists used only through membership. -/
structure MBState where
  placed_bricks : List PlacedBrick
  occupied_positions : List (Int × Int × Int)
  layer_bricks : Int → List PlacedBrick
  layer_seams : Int → List Int

/-- Fresh builder state: every collection empty, as after `__init__` or the
reset at the top of `process_voxels` (lines 198-203). -/
def initState : MBState :=
  { placed_bricks := []
    occupied_positions := []
    layer_bricks := fun _ => []
    layer_seams := fun _ => [] }

/-- Model of `MasterBuilder._can_place_brick_at` (lines 482-487): none of the
cells the brick would occupy is already in `occupied_positions`. -/
def canPlaceBrickAt (st : MBState) (x y z : Int) (width height : Nat) : Prop :=
  ∀ p ∈ getBrickOccupiedPositions (x, y, z) width height z,
    p ∉ st.occupied_positions

instance (st : MBState) (x y z : Int) (width height : Nat) :
    Decidable (canPlaceBrickAt st x y z width height) :=
  inferInstanceAs (Decidable (∀ p ∈ _, p ∉ _))

/-- Set-semantics insertion of many elements into a list-modelled set,
as Python's `set.update`. -/
def addAll (l xs : List (Int × Int × Int)) : List (Int × Int × Int) :=
  xs.foldl (fun acc a => acc.insert a) l

/-- Lexicographic order on `(x, y)` cells: Python's `sorted` on 2-tuples. -/
def voxLE (a b : Int × Int) : Prop :=
  a.1 < b.1 ∨ (a.1 = b.1 ∧ a.2 ≤ b.2)

instance : DecidableRel voxLE := fun a b =>
  inferInstanceAs (Decidable (a.1 < b.1 ∨ (a.1 = b.1 ∧ a.2 ≤ b.2)))

/-- Outcome of one call to `rebrickable.verify_part_availability` as observed
by the packer (lines 394-405): a definite yes, a definite no, or an exception
(`err`, the oracle could not answer). -/
inductive OracleAnswer
  | yes
  | no
  | err
deriving DecidableEq

/-- Parity skip of lines 417-431: on even layers an origin is skipped unless
both coordinates are even, on odd layers unless both are odd. -/
def paritySkips (layer_z x y : Int) : Prop :=
  if layer_z % 2 = 0 then x % 2 ≠ 0 ∨ y % 2 ≠ 0
  else x % 2 ≠ 1 ∨ y % 2 ≠ 1

instance (layer_z x y : Int) : Decidable (paritySkips layer_z x y) :=
  inferInstanceAs (Decidable (if layer_z % 2 = 0 then x % 2 ≠ 0 ∨ y % 2 ≠ 0
    else x % 2 ≠ 1 ∨ y % 2 ≠ 1))

/-- Staggered-joints skip of lines 433-447: when the previous layer recorded
seams, a candidate of width at most 2 whose x-span `[x, x+width)` contains no
previous seam column is skipped. -/
def seamSkips (prevSeams : List Int) (layer_z x : Int) (width : Nat) : Prop :=
  prevSeams ≠ [] ∧ 0 < layer_z ∧
    (¬ ∃ c ∈ prevSeams, x ≤ c ∧ c < x + width) ∧ width ≤ 2

instance (prevSeams : List Int) (layer_z x : Int) (width : Nat) :
    Decidable (seamSkips prevSeams layer_z x width) :=
  inferInstanceAs (Decidable (prevSeams ≠ [] ∧ 0 < layer_z ∧
    (¬ ∃ c ∈ prevSeams, x ≤ c ∧ c < x + width) ∧ width ≤ 2))

/-- Per-cell loop of `_greedy_place_bricks_with_verification`
(lines 414-480).  The cell list is the sorted snapshot taken before the loop;
`remaining` shrinks as bricks are placed.  A brick is placed at `(x, y)` when
the parity rule admits the origin, the staggered-joints rule does not skip
it, `_can_place_brick_at` reports every cell free, and the whole footprint is
still uncovered; placement appends the brick (with `is_verified = true`,
line 460), marks its cells occupied and records seam columns `x` and
`x + width` for the current layer. -/
def placeLoop (width height : Nat) (part_id : String) (color_id : Nat)
    (layer_z : Int) (rotation : Nat) (prevSeams : List Int) :
    List (Int × Int) → List (Int × Int) → MBState →
      List PlacedBrick × MBState
  | [], _, st => ([], st)
  | (x, y) :: rest, remaining, st =>
    if paritySkips layer_z x y then
      placeLoop width height part_id color_id layer_z rotation prevSeams
        rest remaining st
    else if seamSkips prevSeams layer_z x width then
      placeLoop width height part_id color_id layer_z rotation prevSeams
        rest remaining st
    else if canPlaceBrickAt st x y layer_z width height ∧
        (∀ q ∈ getRectangularPositions x y width height, q ∈ remaining) then
      let brick : PlacedBrick :=
        { part_id := part_id
          position := (x, y, layer_z)
          rotation := rotation
          color_id := color_id
          is_verified := true }
      let st' : MBState :=
        { placed_bricks := st.placed_bricks ++ [brick]
          occupied_positions :=
            addAll st.occupied_positions
              (getBrickOccupiedPositions (x, y, layer_z) width height layer_z)
          layer_bricks := fun z' =>
            if z' = layer_z then st.layer_bricks z' ++ [brick]
            else st.layer_bricks z'
          layer_seams := fun z' =>
            if z' = layer_z then
              List.insert (x + (width : Int)) (List.insert x (st.layer_seams z'))
            else st.layer_seams z' }
      let remaining' := remaining.filter
        (fun q => decide (q ∉ getRectangularPositions x y width height))
      let res := placeLoop width height part_id color_id layer_z rotation
        prevSeams rest remaining' st'
      (brick :: res.1, res.2)
    else
      placeLoop width height part_id color_id layer_z rotation prevSeams
        rest remaining st

/-- Availability as assumed by the packer (lines 394-405): true in test
mode, true on a definite `yes`, true when the verification call raises
("assume available if verification fails"), false only on a definite `no`. -/
def availAssumed (test_mode : Bool) (oracle : String → Nat → OracleAnswer)
    (part_id : String) (color_id : Nat) : Bool :=
  if test_mode then true
  else
    match oracle part_id color_id with
    | .yes => true
    | .err => true
    | .no => false

/-- Previous layer's seam set as read at line 392. -/
def prevSeamsOf (st : MBState) (layer_z : Int) : List Int :=
  if 0 < layer_z then st.layer_seams (layer_z - 1) else []

/-- Model of `MasterBuilder._greedy_place_bricks_with_verification`
(lines 363-480).  Availability is consulted once: in test mode or when the
verification call raises (`err`) the part is assumed available; a definite
`no` makes the call return no placements (fallback to the next part).
Otherwise the cells are visited in sorted `(x, y)` order.  The `hex_color`
argument of the Python method is unused by its body and omitted here. -/
def greedyPlaceBricksWithVerification (test_mode : Bool)
    (oracle : String → Nat → OracleAnswer) (voxels : List (Int × Int))
    (width height : Nat) (part_id : String) (color_id : Nat)
    (layer_z : Int) (rotation : Nat) (st : MBState) :
    List PlacedBrick × MBState :=
  if availAssumed test_mode oracle part_id color_id then
    placeLoop width height part_id color_id layer_z rotation
      (prevSeamsOf st layer_z) (voxels.insertionSort voxLE)
      (voxels.insertionSort voxLE) st
  else ([], st)

/-- Candidate part record: the fields of a discovered-part dict that
`_process_layer` reads (`part_num`, `width`, `height`). -/
structure PartInfo where
  part_num : String
  width : Nat
  height : Nat
deriving DecidableEq

/-- Membership in `PRIORITY_BRICK_IDS` (lines 98-102). -/
def isPriorityBrick (part_num : String) : Bool :=
  decide (part_num = "3001" ∨ part_num = "3009" ∨ part_num = "3003")

/-- Priority score from `PRIORITY_BRICK_IDS` (lines 98-102); the `.get(...)
.get("priority", 0)` default of line 288 gives non-priority parts score 0. -/
def priorityScore (part_num : String) : Nat :=
  if part_num = "3001" then 100
  else if part_num = "3009" then 90
  else if part_num = "3003" then 80
  else 0

/-- Descending-priority comparison used for the stable
`priority_parts.sort(..., reverse=True)` of lines 287-290. -/
def prioGE (a b : PartInfo) : Prop :=
  priorityScore b.part_num ≤ priorityScore a.part_num

instance : DecidableRel prioGE := fun a b =>
  inferInstanceAs (Decidable (priorityScore b.part_num ≤
    priorityScore a.part_num))

/-- Model of `MasterBuilder._get_fallback_parts` (lines 715-723), the
candidate list used when dynamic part discovery yields nothing. -/
def getFallbackParts : List PartInfo :=
  [⟨"3001", 4, 2⟩, ⟨"3009", 6, 1⟩, ⟨"3003", 2, 2⟩, ⟨"3004", 2, 1⟩,
   ⟨"3005", 1, 1⟩]

/-- Rotation loop of lines 301-323 and 339-361: for each rotation in
`ROTATIONS = [0, 90, 180, 270]`, place greedily with the rotated dimensions
and remove the cells of every placed brick from the colour group's remaining
set. -/
def runRotations (test_mode : Bool) (oracle : String → Nat → OracleAnswer)
    (p : PartInfo) (color_id : Nat) (layer_z : Int) :
    List Nat → List (Int × Int) → MBState → List (Int × Int) × MBState
  | [], remaining, st => (remaining, st)
  | rot :: rest, remaining, st =>
    if remaining.isEmpty then (remaining, st)
    else
      let dims := getRotatedDimensions p.width p.height rot
      let res := greedyPlaceBricksWithVerification test_mode oracle remaining
        dims.1 dims.2 p.part_num color_id layer_z rot st
      let remaining' := res.1.foldl
        (fun rem b =>
          rem.filter (fun q =>
            decide (q ∉ getRectangularPositions b.position.1 b.position.2.1
              dims.1 dims.2)))
        remaining
      runRotations test_mode oracle p color_id layer_z rest remaining' res.2

/-- Part loop of lines 293-296 and 331-334: parts are tried in order until
the colour group is exhausted. -/
def runParts (test_mode : Bool) (oracle : String → Nat → OracleAnswer)
    (color_id : Nat) (layer_z : Int) :
    List PartInfo → List (Int × Int) → MBState → List (Int × Int) × MBState
  | [], remaining, st => (remaining, st)
  | p :: rest, remaining, st =>
    if remaining.isEmpty then (remaining, st)
    else
      let r := runRotations test_mode oracle p color_id layer_z
        [0, 90, 180, 270] remaining st
      runParts test_mode oracle color_id layer_z rest r.1 r.2

/-- Greedy search of `_process_layer` over one colour group
(lines 279-361): first the priority subset of the candidate list sorted by
descending priority score, then the remaining candidates in their given
order.  Returns the still-uncovered cells and the updated builder state;
note that leftover cells are dropped silently, with no fallback placement
pass and no error. -/
def processColorGroup (test_mode : Bool)
    (oracle : String → Nat → OracleAnswer) (discovered : List PartInfo)
    (voxel_set : List (Int × Int)) (layer_z : Int) (color_id : Nat)
    (st : MBState) : List (Int × Int) × MBState :=
  let priorityParts :=
    (discovered.filter (fun p => isPriorityBrick p.part_num)).insertionSort
      prioGE
  let r1 := runParts test_mode oracle color_id layer_z priorityParts
    voxel_set st
  let otherParts := discovered.filter (fun p => ! isPriorityBrick p.part_num)
  runParts test_mode oracle color_id layer_z otherParts r1.1 r1.2

/-- Error raised by the packing pipeline.  The only failure the pipeline can
produce is Python's `AttributeError` from the unassigned `search_mode`
attribute (see `processLayer`). -/
inductive BuildError
  | attributeError
deriving DecidableEq

/-- Input voxel record as read by `process_voxels` (lines 206-211). -/
structure VoxelIn where
  x : Int
  y : Int
  z : Int
  hex_color : String
deriving DecidableEq

/-- Dict insertion with key overwrite, for the voxel grid
`self.voxel_grid[(x, y, z)] = hex_color` (line 211).  The model keeps the
newest binding first; the grid is only read through key lookups and key
enumeration, for which binding order is irrelevant. -/
def gridInsert (g : List ((Int × Int × Int) × String))
    (k : Int × Int × Int) (v : String) :
    List ((Int × Int × Int) × String) :=
  (k, v) :: g.filter (fun e => decide (e.1 ≠ k))

/-- Loading loop of lines 206-211: later duplicates overwrite earlier ones. -/
def loadGrid (voxel_data : List VoxelIn) :
    List ((Int × Int × Int) × String) :=
  voxel_data.foldl (fun g v => gridInsert g (v.x, v.y, v.z) v.hex_color) []

/-- Layer extraction of lines 222-226: the `(x, y) ↦ hex` bindings of the
grid cells on layer `z`. -/
def layerVoxels (grid : List ((Int × Int × Int) × String)) (z : Int) :
    List ((Int × Int) × String) :=
  grid.filterMap fun e =>
    if e.1.2.2 = z then some ((e.1.1, e.1.2.1), e.2) else none

/-- Model of `MasterBuilder._process_layer` (lines 241-361).  For each colour
group the body reaches line 270, `use_hard_search = (self.search_mode ==
"hard")`; `search_mode` is assigned neither in `__init__` (lines 131-169) nor
anywhere else in the class, so in Python this raises `AttributeError` before
any call to `_greedy_place_bricks_with_verification`.  (Independently, the
module-level `from app.services.part_discovery import ...` of line 17 names a
module absent from the source tree, so the class cannot even be imported; the
model charges the failure to the attribute read the claim names.)  The colour
lookup of line 260 is a pure nearest-colour computation that completes
normally and is irrelevant to the outcome.  A layer with no voxels forms no
colour group and the loop body never runs, but `process_voxels` only calls
`_process_layer` on non-empty layers.  Since the body raises before mutating
any builder state, the state is returned unchanged in the (unreachable for a
non-empty layer) success case. -/
def processLayer (layer_voxels : List ((Int × Int) × String)) :
    Except BuildError Unit :=
  if layer_voxels.isEmpty then .ok () else .error .attributeError

/-- Layer iteration of lines 221-229: each `z` from `min_z` to `max_z` whose
layer is non-empty is processed; the first failure aborts the run. -/
def runLayers (grid : List ((Int × Int × Int) × String)) :
    List Int → Except BuildError Unit
  | [] => .ok ()
  | z :: rest =>
    let lv := layerVoxels grid z
    if lv.isEmpty then runLayers grid rest
    else
      match processLayer lv with
      | .ok _ => runLayers grid rest
      | .error e => .error e

/-- Dimension table `brick_dimensions` of `_generate_manifest`
(lines 545-551) with its `.get(part_id, {1, 1, 1})` default (line 559):
`(studs_width, studs_depth, studs_height)` keyed by part id alone. -/
def brickDimensions (part_id : String) : Nat × Nat × Nat :=
  if part_id = "3001" then (4, 2, 1)
  else if part_id = "3009" then (6, 1, 1)
  else if part_id = "3003" then (2, 2, 1)
  else if part_id = "3004" then (2, 1, 1)
  else if part_id = "3005" then (1, 1, 1)
  else (1, 1, 1)

/-- Model of `MasterBuilder._get_lego_type_name` (lines 675-692). -/
def getLegoTypeName (part_id : String) : String :=
  if part_id = "3001" then "Brick 2x4"
  else if part_id = "3009" then "Brick 1x6"
  else if part_id = "3003" then "Brick 2x2"
  else if part_id = "3004" then "Brick 1x2"
  else if part_id = "3005" then "Brick 1x1"
  else if part_id = "3068" then "Tile 2x2"
  else if part_id = "3069" then "Tile 1x2"
  else if part_id = "3070" then "Tile 1x1"
  else if part_id = "3938" then "Hinge Brick 1x2"
  else if part_id = "6134" then "Hinge Plate 1x2"
  else if part_id = "3040" then "Slope 45 2x1"
  else if part_id = "3038" then "Slope -45 2x1"
  else if part_id = "3297" then "Slope 33 2x2"
  else "Brick " ++ part_id

/-- Model of `MasterBuilder._get_color_info` (lines 694-709), as the pair
`(name, hex)`. -/
def getColorInfo (color_id : Nat) : String × String :=
  if color_id = 16 then ("Dark Tan", "#996633")
  else if color_id = 1 then ("White", "#FFFFFF")
  else if color_id = 5 then ("Red", "#E30A0A")
  else if color_id = 2 then ("Tan", "#D4A574")
  else if color_id = 3 then ("Light Gray", "#C0C0C0")
  else if color_id = 4 then ("Dark Gray", "#605A52")
  else if color_id = 6 then ("Green", "#237841")
  else if color_id = 7 then ("Blue", "#0055BF")
  else if color_id = 9 then ("Black", "#1B1B1B")
  else if color_id = 25 then ("Orange", "#FF7C00")
  else if color_id = 27 then ("Yellow", "#F2CD37")
  else ("Color " ++ toString color_id, "#888888")

/-- Millimetres per stud in the x/y plane (`studs_to_mm = 8.0`, line 563).
Python computes in binary floating point; 8 is exactly representable, and
9.6 is modelled by the exact rational the source text denotes. -/
def studsToMm : ℚ := 8

/-- Millimetres per layer in height (`height_to_mm = 9.6`, line 564). -/
def heightToMm : ℚ := 96 / 10

/-- Per-brick manifest block of `_generate_manifest` (lines 554-612). -/
structure BrickData where
  brick_id : String
  part_id : String
  lego_type : String
  position_studs : Int × Int × Int
  position_mm : ℚ × ℚ × ℚ
  dims_studs : Nat × Nat × Nat
  dims_mm : ℚ × ℚ × ℚ
  rotation : Nat
  color_id : Nat
  color_name : String
  color_hex : String
  vertices : List (ℚ × ℚ × ℚ)
  voxel_coverage : List (Int × Int × Int)
  is_verified : Bool
deriving DecidableEq

/-- Voxel coverage enumeration of lines 579-584: the unrotated cuboid
`[x, x+w) × [y, y+d) × [z, z+h)` in the nested x-outer, y-middle, z-inner
loop order of the Python code. -/
def coverageCells (x y z : Int) (w d h : Nat) : List (Int × Int × Int) :=
  (List.range w).flatMap fun dx =>
    (List.range d).flatMap fun dy =>
      (List.range h).map fun dz =>
        (x + Int.ofNat dx, y + Int.ofNat dy, z + Int.ofNat dz)

/-- Construction of one `brick_data` block (lines 554-612): dimensions come
from `brickDimensions` keyed by part id alone — the recorded rotation is
echoed verbatim but never applied to the footprint — and `voxel_coverage`
enumerates the unrotated cuboid `[x, x+w) × [y, y+d) × [z, z+h)`. -/
def mkBrickData (b : PlacedBrick) : BrickData :=
  let x := b.position.1
  let y := b.position.2.1
  let z := b.position.2.2
  let dims := brickDimensions b.part_id
  let w := dims.1
  let d := dims.2.1
  let h := dims.2.2
  let ci := getColorInfo b.color_id
  { brick_id := b.part_id ++ "_" ++ toString b.color_id
    part_id := b.part_id
    lego_type := getLegoTypeName b.part_id
    position_studs := b.position
    position_mm := (x * studsToMm, y * studsToMm, z * heightToMm)
    dims_studs := dims
    dims_mm := (w * studsToMm, d * studsToMm, h * heightToMm)
    rotation := b.rotation
    color_id := b.color_id
    color_name := ci.1
    color_hex := ci.2
    vertices :=
      [(x * studsToMm, y * studsToMm, z * heightToMm),
       ((x + (w : Int)) * studsToMm, y * studsToMm, z * heightToMm),
       ((x + (w : Int)) * studsToMm, (y + (d : Int)) * studsToMm,
        z * heightToMm),
       (x * studsToMm, (y + (d : Int)) * studsToMm, z * heightToMm),
       (x * studsToMm, y * studsToMm, (z + (h : Int)) * heightToMm),
       ((x + (w : Int)) * studsToMm, y * studsToMm,
        (z + (h : Int)) * heightToMm),
       ((x + (w : Int)) * studsToMm, (y + (d : Int)) * studsToMm,
        (z + (h : Int)) * heightToMm),
       (x * studsToMm, (y + (d : Int)) * studsToMm,
        (z + (h : Int)) * heightToMm)]
    voxel_coverage := coverageCells x y z w d h
    is_verified := b.is_verified }

/-- One entry of the manifest's `voxel_coverage[]` map (lines 617-623). -/
structure CoverageEntry where
  voxel : Int × Int × Int
  brick_id : String
  part_id : String
  lego_type : String
deriving DecidableEq

/-- One entry of the manifest's `inventory[]` (lines 636-645).  The Python
code recovers the part id and colour id by splitting the grouping key on
the underscore; the colour field is kept as the split-off string (the
`int(...)` coercion does not affect any claim). -/
structure InventoryEntry where
  part_id : String
  lego_type : String
  color_field : String
  quantity : Nat
deriving DecidableEq

/-- Grouping key `f"{part_id}_{color_id}"` of line 633. -/
def invKey (b : PlacedBrick) : String :=
  b.part_id ++ "_" ++ toString b.color_id

/-- Counter increment of `inventory[key] += 1` (line 634) on an association
list in key-first-seen order, as a Python dict. -/
def bumpKey : List (String × Nat) → String → List (String × Nat)
  | [], k => [(k, 1)]
  | (k', n) :: rest, k =>
    if k' = k then (k', n + 1) :: rest else (k', n) :: bumpKey rest k

/-- Inventory roll-up of lines 631-645. -/
def inventoryList (bricks : List PlacedBrick) : List InventoryEntry :=
  let counts := bricks.foldl (fun acc b => bumpKey acc (invKey b)) []
  counts.map fun kn =>
    let parts := kn.1.splitOn ("_")
    { part_id := parts.headD ("")
      lego_type := getLegoTypeName (parts.headD (""))
      color_field := parts.getD 1 ("")
      quantity := kn.2 }

/-- The MasterManifest fields the claims are about (lines 519-673).  The
`seam_map` block is omitted: `_update_seam_map`, the only writer of
`self.seam_map`, is never called, so the guard of line 648 never fires;
`evolved_components` and `generation_metadata` are likewise claim-irrelevant
constants of the run. -/
structure Manifest where
  manifest_version : String
  total_bricks : Nat
  bricks : List BrickData
  voxel_coverage : List CoverageEntry
  layers : Int → Nat
  inventory : List InventoryEntry

/-- Model of `MasterBuilder._generate_manifest` (lines 519-673): a pure
function of the builder state.  Bricks are emitted by iterating
`self.placed_bricks` in order — there is no sorting step. -/
def generateManifest (st : MBState) : Manifest :=
  { manifest_version := "2.0"
    total_bricks := st.placed_bricks.length
    bricks := st.placed_bricks.map mkBrickData
    voxel_coverage := st.placed_bricks.flatMap fun b =>
      let bd := mkBrickData b
      bd.voxel_coverage.map fun v =>
        { voxel := v
          brick_id := bd.brick_id
          part_id := b.part_id
          lego_type := bd.lego_type }
    layers := fun z => (st.layer_bricks z).length
    inventory := inventoryList st.placed_bricks }

/-- Vertical layer index of a grid entry. -/
def entryZ (en : (Int × Int × Int) × String) : Int := en.1.2.2

/-- The grid's `min_z` (line 218), folded over a non-empty grid `e :: es`. -/
def minZOf (e : (Int × Int × Int) × String)
    (es : List ((Int × Int × Int) × String)) : Int :=
  (e :: es).foldl (fun m en => min m (entryZ en)) (entryZ e)

/-- The grid's `max_z` (line 219). -/
def maxZOf (e : (Int × Int × Int) × String)
    (es : List ((Int × Int × Int) × String)) : Int :=
  (e :: es).foldl (fun m en => max m (entryZ en)) (entryZ e)

/-- The layer iteration space `range(min_z, max_z + 1)` of line 221. -/
def zRangeOf (e : (Int × Int × Int) × String)
    (es : List ((Int × Int × Int) × String)) : List Int :=
  (List.range ((maxZOf e es - minZOf e es).toNat + 1)).map
    (fun k => minZOf e es + Int.ofNat k)

/-- Model of `MasterBuilder.process_voxels` (lines 186-232): reset state,
load the grid, return the empty manifest for an empty grid, otherwise
process every non-empty layer from `min_z` to `max_z`.  Because
`_process_layer` raises before mutating any state (see `processLayer`), the
success branch — reachable only when every layer is empty, which cannot
happen for a non-empty grid — carries the untouched initial state. -/
def processVoxels (voxel_data : List VoxelIn) :
    Except BuildError Manifest :=
  match loadGrid voxel_data with
  | [] => .ok (generateManifest initState)
  | e :: es =>
    match runLayers (e :: es) (zRangeOf e es) with
    | .ok _ => .ok (generateManifest initState)
    | .error err => .error err

/-- One type-1 line of `export_to_ldraw` (lines 1395-1409): the brick's
colour id verbatim, all three stud coordinates scaled by 20 (the y
coordinate is not scaled by 24 and the z coordinate is not negated), the
constant identity rotation matrix whatever the recorded rotation, and the
part id with a `.dat` suffix. -/
def brickLdrawLine (bd : BrickData) : String :=
  "1 " ++ toString bd.color_id ++ " "
    ++ toString (bd.position_studs.1 * 20) ++ " "
    ++ toString (bd.position_studs.2.1 * 20) ++ " "
    ++ toString (bd.position_studs.2.2 * 20)
    ++ " 1 0 0 0 1 0 0 0 1 " ++ bd.part_id ++ ".dat"

/-- Model of `MasterBuilder.export_to_ldraw` (lines 1367-1426) as the list
of emitted lines: three header comment lines, a blank line, one type-1 line
per manifest brick, a blank line and a total-count comment.  The file
content is these lines joined with newlines. -/
def exportToLdrawLines (m : Manifest) : List String :=
  ["0 LEGO Build", "0 Name: model.ldr", "0 Author: LEGO Master Builder", ""]
    ++ m.bricks.map brickLdrawLine
    ++ ["", "0 // Total bricks: " ++ toString m.bricks.length]

/-- Joined LDraw file content (`"\n".join(ldraw_lines)`, line 1415). -/
def exportToLdraw (m : Manifest) : String :=
  String.intercalate ("\n") (exportToLdrawLines m)

/-- Manifest sort key `(z, y, x, part)` named by the specification's
ordering property. -/
def sortKey (bd : BrickData) : Int × Int × Int × String :=
  (bd.position_studs.2.2, bd.position_studs.2.1, bd.position_studs.1,
    bd.part_id)

/-- Lexicographic order on `(z, y, x, part)` keys; the final component uses
the code-point order on the strings' character lists (the order underlying
`String` comparison). -/
def keyLE (a b : Int × Int × Int × String) : Prop :=
  a.1 < b.1 ∨ (a.1 = b.1 ∧
    (a.2.1 < b.2.1 ∨ (a.2.1 = b.2.1 ∧
      (a.2.2.1 < b.2.2.1 ∨ (a.2.2.1 = b.2.2.1 ∧
        (a.2.2.2 = b.2.2.2 ∨ a.2.2.2.data < b.2.2.2.data))))))

instance : DecidableRel keyLE := fun a b =>
  inferInstanceAs (Decidable (_ ∨ _))

/-- Sortedness of a key list: each key is `keyLE`-below its successor. -/
def keysSorted : List (Int × Int × Int × String) → Prop
  | [] => True
  | [_] => True
  | a :: b :: t => keyLE a b ∧ keysSorted (b :: t)

instance keysSorted.dec :
    (l : List (Int × Int × Int × String)) → Decidable (keysSorted l)
  | [] => .isTrue trivial
  | [_] => .isTrue trivial
  | _ :: b :: t =>
    have : Decidable (keysSorted (b :: t)) := keysSorted.dec (b :: t)
    inferInstanceAs (Decidable (_ ∧ _))

/-! Lemmas about the placement loop. -/

/-- The cells a brick occupies, given the footprint dimensions the packer
used when placing it (within one `_greedy_place_bricks_with_verification`
call all bricks share the call's rotated width and height). -/
def abrickCells (a : PlacedBrick × Nat × Nat) : List (Int × Int × Int) :=
  getBrickOccupiedPositions a.1.position a.2.1 a.2.2 a.1.position.2.2

/-- Two dimension-annotated bricks occupy disjoint stud-cell sets. -/
def cellsDisjoint (a b : PlacedBrick × Nat × Nat) : Prop :=
  ∀ p, p ∈ abrickCells a → p ∉ abrickCells b

/-- Occupancy invariant: `occupied_positions` holds exactly the cells of the
annotated placed bricks, and those bricks are pairwise cell-disjoint. -/
def OccuInv (st : MBState) (annot : List (PlacedBrick × Nat × Nat)) : Prop :=
  (∀ p, p ∈ st.occupied_positions ↔ ∃ a ∈ annot, p ∈ abrickCells a) ∧
    annot.Pairwise cellsDisjoint

/-- Demo run for C5: the availability oracle raises (models the `except`
branch of lines 403-405) and the part is placed anyway. -/
def oracleErrDemo : List PlacedBrick × MBState :=
  greedyPlaceBricksWithVerification false (fun _ _ => .err) [(0, 0)] 1 1
    ("3005") 7 0 0 initState

/-- State with a recorded seam column at x = 2 on layer 0, for the seam
bridging witness. -/
def seamDemoState : MBState :=
  { placed_bricks := []
    occupied_positions := []
    layer_bricks := fun _ => []
    layer_seams := fun z => if z = 0 then [2] else [] }

/-- Demo run for C6: a 4-wide brick placed on layer 1 across the seam
column x = 2 of layer 0. -/
def seamDemo : List PlacedBrick × MBState :=
  greedyPlaceBricksWithVerification true (fun _ _ => .yes)
    [(1, 1), (2, 1), (3, 1), (4, 1)] 4 1 ("3001") 5 1 0 seamDemoState

/-- Demo run for C7: two 1x1 bricks on layer 0; the greedy `(x, y)`-sorted
cell order places `(0, 2)` before `(2, 0)`, an order that the `(z, y, x,
part)` key ranks the other way round. -/
def unsortedDemo : List PlacedBrick × MBState :=
  greedyPlaceBricksWithVerification true (fun _ _ => .yes) [(0, 2), (2, 0)]
    1 1 ("3005") 1 0 0 initState

/-- Demo run shared by the C8 and C10 counterexamples: a 2x4 footprint (part
3001 rotated by 90 degrees) placed on layer 1 at origin `(1, 1)`. -/
def rotDemo : List PlacedBrick × MBState :=
  greedyPlaceBricksWithVerification true (fun _ _ => .yes)
    [(1, 1), (1, 2), (1, 3), (1, 4), (2, 1), (2, 2), (2, 3), (2, 4)] 2 4
    ("3001") 5 1 90 initState

theorem mem_addAll (l xs : List (Int × Int × Int)) (p : Int × Int × Int) :
    p ∈ addAll l xs ↔ p ∈ l ∨ p ∈ xs := by
  induction xs generalizing l with
  | nil => simp [addAll]
  | cons a t ih =>
    simp only [addAll, List.foldl_cons] at *
    rw [ih]
    simp [List.mem_insert_iff]
    tauto

theorem placeLoop_mem (width height : Nat) (part_id : String)
    (color_id : Nat) (layer_z : Int) (rotation : Nat) (prevSeams : List Int) :
    ∀ (cells remaining : List (Int × Int)) (st : MBState) (b : PlacedBrick),
      b ∈ (placeLoop width height part_id color_id layer_z rotation prevSeams
          cells remaining st).1 →
      b.is_verified = true ∧ b.position.2.2 = layer_z ∧
        b.rotation = rotation ∧ b.part_id = part_id ∧
        b.color_id = color_id ∧
        ¬ paritySkips layer_z b.position.1 b.position.2.1
  | [], remaining, st, b => by
    simp [placeLoop]
  | (x, y) :: rest, remaining, st, b => by
    rw [placeLoop]
    split
    · exact placeLoop_mem width height part_id color_id layer_z rotation
        prevSeams rest remaining st b
    · split
      · exact placeLoop_mem width height part_id color_id layer_z rotation
          prevSeams rest remaining st b
      · split
        · rename_i hpar hseam hplace
          intro hb
          rcases List.mem_cons.mp hb with hb | hb
          · subst hb
            exact ⟨rfl, rfl, rfl, rfl, rfl, hpar⟩
          · exact placeLoop_mem width height part_id color_id layer_z
              rotation prevSeams rest _ _ b hb
        · exact placeLoop_mem width height part_id color_id layer_z rotation
            prevSeams rest remaining st b

theorem oinv_extend (occ : List (Int × Int × Int))
    (annot : List (PlacedBrick × Nat × Nat)) (x y z : Int)
    (width height : Nat) (pid : String) (cid : Nat) (rot : Nat)
    (h1 : ∀ p, p ∈ occ ↔ ∃ a ∈ annot, p ∈ abrickCells a)
    (h2 : annot.Pairwise cellsDisjoint)
    (hcan : ∀ p ∈ getBrickOccupiedPositions (x, y, z) width height z,
      p ∉ occ) :
    (∀ p, p ∈ addAll occ (getBrickOccupiedPositions (x, y, z) width height z)
        ↔ ∃ a ∈ annot ++ [((⟨pid, (x, y, z), rot, cid, true⟩ : PlacedBrick), width, height)],
            p ∈ abrickCells a) ∧
      (annot ++ [((⟨pid, (x, y, z), rot, cid, true⟩ : PlacedBrick), width, height)]).Pairwise
        cellsDisjoint := by
  have hnb : abrickCells ((⟨pid, (x, y, z), rot, cid, true⟩ : PlacedBrick), width, height) =
      getBrickOccupiedPositions (x, y, z) width height z := rfl
  constructor
  · intro p
    rw [mem_addAll, h1]
    simp only [List.mem_append, List.mem_singleton]
    constructor
    · rintro (⟨a, ha, hp⟩ | hp)
      · exact ⟨a, Or.inl ha, hp⟩
      · exact ⟨((⟨pid, (x, y, z), rot, cid, true⟩ : PlacedBrick), width, height),
          Or.inr rfl, by rwa [hnb]⟩
    · rintro ⟨a, ha | ha, hp⟩
      · exact Or.inl ⟨a, ha, hp⟩
      · subst ha
        exact Or.inr (by rwa [hnb] at hp)
  · rw [List.pairwise_append]
    refine ⟨h2, List.pairwise_singleton _ _, ?_⟩
    intro a ha b hb
    rcases List.mem_singleton.mp hb with rfl
    intro p hpa hpnb
    exact hcan p (by rwa [hnb] at hpnb) ((h1 p).mpr ⟨a, ha, hpa⟩)

theorem placeLoop_inv (width height : Nat) (part_id : String)
    (color_id : Nat) (layer_z : Int) (rotation : Nat) (prevSeams : List Int) :
    ∀ (cells remaining : List (Int × Int)) (st : MBState)
      (annot : List (PlacedBrick × Nat × Nat)), OccuInv st annot →
      OccuInv (placeLoop width height part_id color_id layer_z rotation
          prevSeams cells remaining st).2
        (annot ++ ((placeLoop width height part_id color_id layer_z rotation
            prevSeams cells remaining st).1.map
          (fun b => (b, width, height))))
  | [], remaining, st, annot, h => by
    rw [placeLoop]
    simpa using h
  | (x, y) :: rest, remaining, st, annot, h => by
    rw [placeLoop]
    split
    · exact placeLoop_inv width height part_id color_id layer_z rotation
        prevSeams rest remaining st annot h
    · split
      · exact placeLoop_inv width height part_id color_id layer_z rotation
          prevSeams rest remaining st annot h
      · split
        · rename_i hpar hseam hplace
          simp only [List.map_cons]
          rw [List.append_cons annot
            ((⟨part_id, (x, y, layer_z), rotation, color_id, true⟩ :
                PlacedBrick), width, height)]
          refine placeLoop_inv width height part_id color_id layer_z rotation
            prevSeams rest _ _ _ ?_
          have hstep := oinv_extend st.occupied_positions annot x y layer_z
            width height part_id color_id rotation h.1 h.2 hplace.1
          exact ⟨hstep.1, hstep.2⟩
        · exact placeLoop_inv width height part_id color_id layer_z rotation
            prevSeams rest remaining st annot h

theorem greedy_mem (test_mode : Bool) (oracle : String → Nat → OracleAnswer)
    (voxels : List (Int × Int)) (width height : Nat) (part_id : String)
    (color_id : Nat) (layer_z : Int) (rotation : Nat) (st : MBState)
    (b : PlacedBrick)
    (hb : b ∈ (greedyPlaceBricksWithVerification test_mode oracle voxels
        width height part_id color_id layer_z rotation st).1) :
    b.is_verified = true ∧ b.position.2.2 = layer_z ∧
      b.rotation = rotation ∧ b.part_id = part_id ∧ b.color_id = color_id ∧
      ¬ paritySkips layer_z b.position.1 b.position.2.1 := by
  unfold greedyPlaceBricksWithVerification at hb
  split at hb
  · exact placeLoop_mem width height part_id color_id layer_z rotation _ _ _
      st b hb
  · simp at hb

/-- C3: within a packing run every pair of placed bricks occupies disjoint
stud-cell sets: `_greedy_place_bricks_with_verification` places a brick only
when `_can_place_brick_at` finds none of its cells in `occupied_positions`
and adds all of its cells on placement, so from any state whose occupied set
is exactly the cells of the (pairwise disjoint) bricks placed so far, the
call returns a state in which the old and new bricks together are again
pairwise cell-disjoint and the occupied set is exactly their cells. -/
theorem c3_placed_bricks_disjoint (test_mode : Bool)
    (oracle : String → Nat → OracleAnswer) (voxels : List (Int × Int))
    (width height : Nat) (part_id : String) (color_id : Nat) (layer_z : Int)
    (rotation : Nat) (st : MBState)
    (annot : List (PlacedBrick × Nat × Nat)) (h : OccuInv st annot) :
    OccuInv (greedyPlaceBricksWithVerification test_mode oracle voxels width
        height part_id color_id layer_z rotation st).2
      (annot ++ ((greedyPlaceBricksWithVerification test_mode oracle voxels
          width height part_id color_id layer_z rotation st).1.map
        (fun b => (b, width, height)))) := by
  unfold greedyPlaceBricksWithVerification
  split
  · exact placeLoop_inv width height part_id color_id layer_z rotation _ _ _
      st annot h
  · simpa using h

/-- Witness for C3: the run over the four cells `(0,0), (1,0), (4,0), (5,0)`
really places the two 1x2 bricks at origins `(0, 0, 0)` and `(4, 0, 0)`
(first conjunct, by evaluation), and starting from the empty state it ends
with the occupied set characterised and the two annotated bricks pairwise
cell-disjoint (second conjunct, by the theorem). -/
theorem c3_placed_bricks_disjoint_witness :
    (greedyPlaceBricksWithVerification true (fun _ _ => .yes)
        [(0, 0), (1, 0), (4, 0), (5, 0)] 2 1 ("3004") 1 0 0 initState).1 =
      [⟨"3004", (0, 0, 0), 0, 1, true⟩, ⟨"3004", (4, 0, 0), 0, 1, true⟩] ∧
      OccuInv (greedyPlaceBricksWithVerification true (fun _ _ => .yes)
          [(0, 0), (1, 0), (4, 0), (5, 0)] 2 1 ("3004") 1 0 0 initState).2
        ([] ++ ((greedyPlaceBricksWithVerification true (fun _ _ => .yes)
            [(0, 0), (1, 0), (4, 0), (5, 0)] 2 1 ("3004") 1 0 0
            initState).1.map
          (fun b => (b, 2, 1)))) :=
  ⟨by decide,
    c3_placed_bricks_disjoint true (fun _ _ => .yes)
      [(0, 0), (1, 0), (4, 0), (5, 0)] 2 1 ("3004") 1 0 0 initState []
      ⟨by simp [initState], List.Pairwise.nil⟩⟩

/-- C4 (amended): every brick placed by
`_greedy_place_bricks_with_verification` satisfies the parity rule — on an
even layer its origin has even x and y, on an odd layer odd x and y.  (The
relaxation half of the claim fails: see the counterexample.) -/
theorem c4_parity_of_placements (test_mode : Bool)
    (oracle : String → Nat → OracleAnswer) (voxels : List (Int × Int))
    (width height : Nat) (part_id : String) (color_id : Nat) (layer_z : Int)
    (rotation : Nat) (st : MBState) (b : PlacedBrick)
    (hb : b ∈ (greedyPlaceBricksWithVerification test_mode oracle voxels
        width height part_id color_id layer_z rotation st).1) :
    (layer_z % 2 = 0 →
        b.position.1 % 2 = 0 ∧ b.position.2.1 % 2 = 0) ∧
      (layer_z % 2 ≠ 0 →
        b.position.1 % 2 = 1 ∧ b.position.2.1 % 2 = 1) := by
  obtain ⟨-, -, -, -, -, hpar⟩ := greedy_mem test_mode oracle voxels width
    height part_id color_id layer_z rotation st b hb
  constructor
  · intro hz
    unfold paritySkips at hpar
    rw [if_pos hz] at hpar
    push_neg at hpar
    exact hpar
  · intro hz
    unfold paritySkips at hpar
    rw [if_neg hz] at hpar
    push_neg at hpar
    exact hpar

/-- Witness for C4: the brick placed at the origin of even layer 0
satisfies the parity rule. -/
theorem c4_parity_of_placements_witness :
    ((0 : Int) % 2 = 0 →
        (⟨"3005", (0, 0, 0), 0, 1, true⟩ : PlacedBrick).position.1 % 2 = 0 ∧
          (⟨"3005", (0, 0, 0), 0, 1, true⟩ :
            PlacedBrick).position.2.1 % 2 = 0) ∧
      ((0 : Int) % 2 ≠ 0 →
        (⟨"3005", (0, 0, 0), 0, 1, true⟩ : PlacedBrick).position.1 % 2 = 1 ∧
          (⟨"3005", (0, 0, 0), 0, 1, true⟩ :
            PlacedBrick).position.2.1 % 2 = 1) :=
  c4_parity_of_placements true (fun _ _ => .yes) [(0, 0)] 1 1 ("3005") 1 0 0
    initState ⟨"3005", (0, 0, 0), 0, 1, true⟩ (by decide)

/-- Counterexample for C4 as stated: for the colour group `{(1, 1)}` on even
layer 0 the parity rule blocks every placement, yet `_process_layer`'s
greedy search over the full fallback candidate list (both the priority pass
and the remainder pass, all rotations, 1x1 included) places nothing and
leaves the cell uncovered — parity is never relaxed and no diagnostic
exists. -/
theorem c4_parity_relaxation_counterexample :
    (processColorGroup false (fun _ _ => .yes) getFallbackParts [(1, 1)] 0 5
        initState).2.placed_bricks = [] ∧
      (processColorGroup false (fun _ _ => .yes) getFallbackParts [(1, 1)] 0
        5 initState).1 = [(1, 1)] := by
  decide

/-- Counterexample for C5 as stated: when the verification call raises, the
packer assumes availability and the resulting placement carries
`is_verified = true`, not `false`. -/
theorem c5_verified_counterexample :
    oracleErrDemo.1 = [⟨"3005", (0, 0, 0), 0, 7, true⟩] ∧
      (⟨"3005", (0, 0, 0), 0, 7, true⟩ : PlacedBrick).is_verified = true := by
  decide

/-- C5 (amended): every brick placed by
`_greedy_place_bricks_with_verification` carries `is_verified = true` (the
flag is hardcoded at the placement site, line 460), whatever the oracle
answered; a definite `no` is the only oracle outcome that prevents
placement, so `verified = true` does not certify positive confirmation. -/
theorem c5_verified_flag (test_mode : Bool)
    (oracle : String → Nat → OracleAnswer) (voxels : List (Int × Int))
    (width height : Nat) (part_id : String) (color_id : Nat) (layer_z : Int)
    (rotation : Nat) (st : MBState) :
    (∀ b ∈ (greedyPlaceBricksWithVerification test_mode oracle voxels width
        height part_id color_id layer_z rotation st).1,
      b.is_verified = true) ∧
      (test_mode = false → oracle part_id color_id = .no →
        (greedyPlaceBricksWithVerification test_mode oracle voxels width
          height part_id color_id layer_z rotation st).1 = []) := by
  constructor
  · intro b hb
    exact (greedy_mem test_mode oracle voxels width height part_id color_id
      layer_z rotation st b hb).1
  · intro ht hno
    unfold greedyPlaceBricksWithVerification
    simp [availAssumed, ht, hno]

/-- Witness for C5: the brick placed under the raising oracle has
`is_verified = true`. -/
theorem c5_verified_flag_witness :
    (⟨"3005", (0, 0, 0), 0, 7, true⟩ : PlacedBrick).is_verified = true :=
  (c5_verified_flag false (fun _ _ => .err) [(0, 0)] 1 1 ("3005") 7 0 0
    initState).1 ⟨"3005", (0, 0, 0), 0, 7, true⟩ (by decide)

/-- C6: for every brick placed at layer `z ≥ 1` while the previous layer's
seam set is non-empty, if some seam column of layer `z - 1` lies strictly
inside the brick's x-span (not on its boundary), then the brick's width is
at least 2; in particular no width-1 brick straddles such a column. -/
theorem c6_seam_crossing_width (test_mode : Bool)
    (oracle : String → Nat → OracleAnswer) (voxels : List (Int × Int))
    (width height : Nat) (part_id : String) (color_id : Nat) (layer_z : Int)
    (rotation : Nat) (st : MBState) (b : PlacedBrick)
    (hb : b ∈ (greedyPlaceBricksWithVerification test_mode oracle voxels
        width height part_id color_id layer_z rotation st).1)
    (hz : 1 ≤ layer_z) (hne : st.layer_seams (layer_z - 1) ≠ []) (c : Int)
    (hc : c ∈ st.layer_seams (layer_z - 1))
    (hcross : b.position.1 < c ∧ c < b.position.1 + (width : Int)) :
    2 ≤ width := by
  omega

/-- Witness for C6: in `seamDemo` the placed brick crosses the seam column
x = 2 of layer 0 in its interior and indeed has width 4 ≥ 2. -/
theorem c6_seam_crossing_width_witness :
    (⟨"3001", (1, 1, 1), 0, 5, true⟩ : PlacedBrick) ∈ seamDemo.1 ∧
      (2 : Int) ∈ seamDemoState.layer_seams 0 ∧ 2 ≤ 4 :=
  ⟨by decide, by decide,
    c6_seam_crossing_width true (fun _ _ => .yes)
      [(1, 1), (2, 1), (3, 1), (4, 1)] 4 1 ("3001") 5 1 0 seamDemoState
      ⟨"3001", (1, 1, 1), 0, 5, true⟩ (by decide) (by decide) (by decide) 2
      (by decide) (by decide)⟩

/-- Counterexample for C7 as stated: the manifest emitted for the
`unsortedDemo` run lists its bricks in placement order, which is not sorted
by `(z, y, x, part)` — `_generate_manifest` contains no sorting step. -/
theorem c7_bricks_not_sorted_counterexample :
    (generateManifest unsortedDemo.2).bricks.map sortKey =
        [(0, 2, 0, "3005"), (0, 0, 2, "3005")] ∧
      ¬ keysSorted ((generateManifest unsortedDemo.2).bricks.map
        sortKey) := by
  constructor
  · decide
  · decide

/-- C7 (amended): `bricks[]` lists the placed bricks in placement order —
the emitter maps the placements vector one-to-one without re-sorting, so the
`(z, y, x, part)` keys of `bricks[]` are exactly the keys of
`placed_bricks` in the same order (deterministic for identical placement
vectors, but not the canonical sorted order the specification states). -/
theorem c7_bricks_in_placement_order (st : MBState) :
    (generateManifest st).bricks.map sortKey =
      st.placed_bricks.map (fun b =>
        (b.position.2.2, b.position.2.1, b.position.1, b.part_id)) := by
  show (st.placed_bricks.map mkBrickData).map sortKey = _
  rw [List.map_map]
  rfl

theorem bumpKey_sum (l : List (String × Nat)) (k : String) :
    ((bumpKey l k).map Prod.snd).sum = (l.map Prod.snd).sum + 1 := by
  induction l with
  | nil => simp [bumpKey]
  | cons a t ih =>
    obtain ⟨k', n⟩ := a
    unfold bumpKey
    split
    · simp
      omega
    · simp [ih]
      omega

theorem foldl_bumpKey_sum (bricks : List PlacedBrick) :
    ∀ l : List (String × Nat),
      ((bricks.foldl (fun acc b => bumpKey acc (invKey b)) l).map
        Prod.snd).sum = (l.map Prod.snd).sum + bricks.length := by
  induction bricks with
  | nil => intro l; simp
  | cons b t ih =>
    intro l
    rw [List.foldl_cons, ih, bumpKey_sum]
    simp
    omega

/-- C9: in every emitted manifest the quantities of the inventory entries
sum to `total_bricks`, which is the number of entries of `bricks[]`. -/
theorem c9_inventory_balance (st : MBState) :
    ((generateManifest st).inventory.map (fun e => e.quantity)).sum =
        (generateManifest st).total_bricks ∧
      (generateManifest st).total_bricks =
        (generateManifest st).bricks.length := by
  constructor
  · show ((inventoryList st.placed_bricks).map (fun e => e.quantity)).sum =
      st.placed_bricks.length
    unfold inventoryList
    rw [List.map_map]
    have h := foldl_bumpKey_sum st.placed_bricks []
    simpa using h
  · show st.placed_bricks.length =
      (st.placed_bricks.map mkBrickData).length
    rw [List.length_map]

theorem brickDimensions_height (p : String) : (brickDimensions p).2.2 = 1 := by
  unfold brickDimensions
  split_ifs <;> rfl

theorem flatMap_singleton_map (l : List α) (f : α → β) :
    (l.flatMap fun a => [f a]) = l.map f := by
  induction l with
  | nil => rfl
  | cons a t ih => simp [ih]

theorem coverage_unrotated (x y z : Int) (w d : Nat) :
    coverageCells x y z w d 1 = getBrickOccupiedPositions (x, y, z) w d z := by
  unfold coverageCells getBrickOccupiedPositions
  have h1 : ∀ a b : Int,
      ((List.range 1).map fun dz => (a, b, z + Int.ofNat dz)) =
        [(a, b, z)] := by
    intro a b
    simp [List.range_succ]
  simp only [h1, flatMap_singleton_map]

/-- The emitted `voxel_coverage` of a brick block is the unrotated table
footprint laid out at the brick's position. -/
theorem mkBrickData_coverage (b : PlacedBrick) :
    (mkBrickData b).voxel_coverage =
      getBrickOccupiedPositions b.position (brickDimensions b.part_id).1
        (brickDimensions b.part_id).2.1 b.position.2.2 := by
  have hcov : (mkBrickData b).voxel_coverage =
      coverageCells b.position.1 b.position.2.1 b.position.2.2
        (brickDimensions b.part_id).1 (brickDimensions b.part_id).2.1
        (brickDimensions b.part_id).2.2 := rfl
  rw [hcov, brickDimensions_height]
  have h := coverage_unrotated b.position.1 b.position.2.1 b.position.2.2
    (brickDimensions b.part_id).1 (brickDimensions b.part_id).2.1
  rw [h]

/-- C8 (amended): the per-brick manifest block reports dimensions and
voxel coverage looked up in the fixed five-part dimension table by part id
alone, with the recorded rotation never applied; consequently the block
equals the stud cells the brick actually occupies exactly when rotating the
table footprint leaves it unchanged (rotation 0 or 180, or a square
footprint), and diverges otherwise (see the counterexample). -/
theorem c8_block_unrotated (b : PlacedBrick) :
    (mkBrickData b).dims_studs = brickDimensions b.part_id ∧
      (getRotatedDimensions (brickDimensions b.part_id).1
          (brickDimensions b.part_id).2.1 b.rotation =
            ((brickDimensions b.part_id).1, (brickDimensions b.part_id).2.1) →
        (mkBrickData b).voxel_coverage =
          getBrickOccupiedPositions b.position
            (getRotatedDimensions (brickDimensions b.part_id).1
              (brickDimensions b.part_id).2.1 b.rotation).1
            (getRotatedDimensions (brickDimensions b.part_id).1
              (brickDimensions b.part_id).2.1 b.rotation).2
            b.position.2.2) := by
  refine ⟨rfl, ?_⟩
  intro h
  rw [h]
  exact mkBrickData_coverage b

/-- Witness for C8: a 2x2 brick at the origin with rotation 0 — the block's
coverage equals the actually occupied cells. -/
theorem c8_block_unrotated_witness :
    getRotatedDimensions (brickDimensions ("3003")).1
        (brickDimensions ("3003")).2.1 0 =
          ((brickDimensions ("3003")).1, (brickDimensions ("3003")).2.1) ∧
      (mkBrickData (⟨"3003", (0, 0, 0), 0, 5, true⟩ :
          PlacedBrick)).voxel_coverage =
        getBrickOccupiedPositions ((0 : Int), (0 : Int), (0 : Int)) 2 2 0 :=
  ⟨by decide,
    (c8_block_unrotated ⟨"3003", (0, 0, 0), 0, 5, true⟩).2 (by decide)⟩

/-- Counterexample for C8 as stated: the brick placed in `rotDemo` occupies
the rotated 2-wide, 4-deep footprint, but its manifest block reports the
unrotated 4x2 table dimensions and a voxel coverage containing the cell
`(4, 1, 1)`, which the brick never occupied. -/
theorem c8_rotation_ignored_counterexample :
    rotDemo.1 = [⟨"3001", (1, 1, 1), 90, 5, true⟩] ∧
      getRotatedDimensions 4 2 90 = (2, 4) ∧
      ((4 : Int), (1 : Int), (1 : Int)) ∈
        (mkBrickData ⟨"3001", (1, 1, 1), 90, 5, true⟩).voxel_coverage ∧
      ((4 : Int), (1 : Int), (1 : Int)) ∉
        getBrickOccupiedPositions (1, 1, 1) 2 4 1 ∧
      ((4 : Int), (1 : Int), (1 : Int)) ∉ rotDemo.2.occupied_positions ∧
      (mkBrickData ⟨"3001", (1, 1, 1), 90, 5, true⟩).dims_studs =
        (4, 2, 1) := by
  refine ⟨by decide, by decide, by decide, by decide, by decide, by decide⟩

/-- C10 (amended): the LDraw-style export consists of the three header
comment lines and a blank line, then exactly one type-1 line per placed
brick of the form `1 <color_id> <x·20> <y·20> <z·20> 1 0 0 0 1 0 0 0 1
<part>.dat` — the colour field is the brick's Rebrickable colour id
verbatim (no LDraw colour table exists), all three coordinates are scaled
by 20 (y is not scaled by 24 and z is not negated), and the matrix is the
identity for every rotation — then a blank line and a total-count
comment. -/
theorem c10_ldraw_line_format (st : MBState) :
    exportToLdrawLines (generateManifest st) =
      ["0 LEGO Build", "0 Name: model.ldr",
          "0 Author: LEGO Master Builder", ""]
        ++ st.placed_bricks.map (fun b =>
          "1 " ++ toString b.color_id ++ " "
            ++ toString (b.position.1 * 20) ++ " "
            ++ toString (b.position.2.1 * 20) ++ " "
            ++ toString (b.position.2.2 * 20)
            ++ " 1 0 0 0 1 0 0 0 1 " ++ b.part_id ++ ".dat")
        ++ ["", "0 // Total bricks: " ++ toString st.placed_bricks.length]
    := by
  show _ ++ (st.placed_bricks.map mkBrickData).map brickLdrawLine
      ++ ["", "0 // Total bricks: "
        ++ toString (st.placed_bricks.map mkBrickData).length] = _
  rw [List.map_map, List.length_map]
  rfl

/-- Counterexample for C10 as stated: the line emitted for the rotation-90
brick of `rotDemo` (colour 5, position `(1, 1, 1)`) carries the raw colour
id, the y coordinate scaled by 20 (not 24), the z coordinate `+20` (not
`-20`), and the identity matrix despite the 90-degree rotation. -/
theorem c10_ldraw_counterexample :
    rotDemo.1.map (fun b => b.rotation) = [90] ∧
      (exportToLdrawLines (generateManifest rotDemo.2))[4]? =
        some ("1 5 20 20 20 1 0 0 0 1 0 0 0 1 3001.dat") ∧
      "1 5 20 20 20 1 0 0 0 1 0 0 0 1 3001.dat" =
        "1 " ++ toString (5 : Nat) ++ " " ++ toString ((1 : Int) * 20)
          ++ " " ++ toString ((1 : Int) * 20) ++ " "
          ++ toString ((1 : Int) * 20) ++ " 1 0 0 0 1 0 0 0 1 "
          ++ "3001" ++ ".dat" ∧
      toString ((1 : Int) * 24) = "24" ∧
      toString ((1 : Int) * 20) ≠ toString ((1 : Int) * 24) ∧
      toString (-((1 : Int) * 20)) = "-20" ∧
      toString ((1 : Int) * 20) ≠ toString (-((1 : Int) * 20)) := by
  refine ⟨by decide, by decide, by decide, by decide, by decide, by decide,
    by decide⟩

theorem gridInsert_ne_nil (g : List ((Int × Int × Int) × String))
    (k : Int × Int × Int) (v : String) : gridInsert g k v ≠ [] := by
  simp [gridInsert]

theorem foldl_gridInsert_ne_nil :
    ∀ (l : List VoxelIn) (g : List ((Int × Int × Int) × String)), g ≠ [] →
      l.foldl (fun g' v => gridInsert g' (v.x, v.y, v.z) v.hex_color) g ≠ []
  | [], _, hg => hg
  | v :: t, g, _ => by
    rw [List.foldl_cons]
    exact foldl_gridInsert_ne_nil t _ (gridInsert_ne_nil g _ _)

theorem loadGrid_ne_nil (v : VoxelIn) (vs : List VoxelIn) :
    loadGrid (v :: vs) ≠ [] := by
  unfold loadGrid
  rw [List.foldl_cons]
  exact foldl_gridInsert_ne_nil vs _ (gridInsert_ne_nil [] _ _)

theorem foldl_min_attained (f : (Int × Int × Int) × String → Int) :
    ∀ (l : List ((Int × Int × Int) × String)) (a : Int),
      l.foldl (fun m en => min m (f en)) a = a ∨
        ∃ en ∈ l, l.foldl (fun m en => min m (f en)) a = f en
  | [], _ => Or.inl rfl
  | e :: t, a => by
    rw [List.foldl_cons]
    rcases foldl_min_attained f t (min a (f e)) with h | ⟨en, hen, h⟩
    · rcases min_choice a (f e) with hm | hm
      · exact Or.inl (by rw [h, hm])
      · exact Or.inr ⟨e, List.mem_cons_self e t, by rw [h, hm]⟩
    · exact Or.inr ⟨en, List.mem_cons_of_mem e hen, h⟩

theorem layerVoxels_ne_nil (grid : List ((Int × Int × Int) × String))
    (en : (Int × Int × Int) × String) (hen : en ∈ grid) :
    layerVoxels grid en.1.2.2 ≠ [] := by
  intro h
  have hmem : ((en.1.1, en.1.2.1), en.2) ∈ layerVoxels grid en.1.2.2 := by
    unfold layerVoxels
    refine List.mem_filterMap.mpr ⟨en, hen, ?_⟩
    simp
  rw [h] at hmem
  exact List.not_mem_nil _ hmem

theorem runLayers_error (grid : List ((Int × Int × Int) × String)) :
    ∀ (zs : List Int) (z : Int), z ∈ zs → layerVoxels grid z ≠ [] →
      runLayers grid zs = .error .attributeError
  | [], z, hz, _ => absurd hz (List.not_mem_nil z)
  | z' :: rest, z, hz, hlv => by
    unfold runLayers
    cases he : (layerVoxels grid z').isEmpty with
    | true =>
      rw [if_pos (by rw [he])]
      rcases List.mem_cons.mp hz with rfl | hz2
      · exact absurd (List.isEmpty_iff.mp he) hlv
      · exact runLayers_error grid rest z hz2 hlv
    | false =>
      rw [if_neg (by rw [he]; exact Bool.false_ne_true)]
      unfold processLayer
      rw [if_neg (by rw [he]; exact Bool.false_ne_true)]

theorem minZOf_attained (e : (Int × Int × Int) × String)
    (es : List ((Int × Int × Int) × String)) :
    ∃ en ∈ e :: es, minZOf e es = entryZ en := by
  unfold minZOf
  rcases foldl_min_attained entryZ (e :: es) (entryZ e) with h | ⟨en, hen, h⟩
  · exact ⟨e, List.mem_cons_self e es, h⟩
  · exact ⟨en, hen, h⟩

theorem minZOf_mem_zRange (e : (Int × Int × Int) × String)
    (es : List ((Int × Int × Int) × String)) :
    minZOf e es ∈ zRangeOf e es := by
  unfold zRangeOf
  refine List.mem_map.mpr ⟨0, List.mem_range.mpr (Nat.succ_pos _), ?_⟩
  simp

/-- C2: the packing pipeline cannot process any voxel.  Every non-empty
input reaches `_process_layer`, which reads the never-assigned
`self.search_mode` attribute and fails before placing a single brick (the
model's `attributeError`; independently, the module-level import of the
absent `app.services.part_discovery` already prevents the class from
loading).  Only the empty voxel list yields a manifest, with
`total_bricks = 0`. -/
theorem c2_process_voxels_attribute_error :
    (∀ voxel_data : List VoxelIn, voxel_data ≠ [] →
        processVoxels voxel_data = .error .attributeError) ∧
      processVoxels [] = .ok (generateManifest initState) ∧
      (generateManifest initState).total_bricks = 0 := by
  refine ⟨?_, rfl, rfl⟩
  intro voxel_data hvd
  obtain ⟨v, vs, rfl⟩ := List.exists_cons_of_ne_nil hvd
  have hg := loadGrid_ne_nil v vs
  unfold processVoxels
  split
  · rename_i hnil
    exact absurd hnil hg
  · rename_i e es heq
    obtain ⟨en, hen, hmin⟩ := minZOf_attained e es
    have hlv : layerVoxels (e :: es) (minZOf e es) ≠ [] := by
      rw [hmin]
      exact layerVoxels_ne_nil (e :: es) en hen
    have herr := runLayers_error (e :: es) (zRangeOf e es) (minZOf e es)
      (minZOf_mem_zRange e es) hlv
    split
    · rename_i u hok
      rw [herr] at hok
      exact absurd hok (by simp)
    · rename_i err herr2
      have h3 : err = BuildError.attributeError :=
        Except.error.inj (herr2.symm.trans herr)
      rw [h3]

/-- Witness for C2: a concrete one-voxel input makes `process_voxels` fail
with the attribute error, before any brick is placed. -/
theorem c2_process_voxels_attribute_error_witness :
    processVoxels [⟨5, 5, 5, "#abcdef"⟩] = .error .attributeError :=
  c2_process_voxels_attribute_error.1 [⟨5, 5, 5, "#abcdef"⟩] (by simp)

/-- C1 (code bug): evaluating the pipeline at the single red voxel
`(0, 0, 0, "#ff0000")` — an input the specification requires to be fully
covered by exactly one brick — aborts with the attribute error instead of
emitting any manifest; no voxel is covered, no 1x1 fallback runs, and no
catalogue-driven fatal packing error is involved. -/
theorem c1_coverage_failing_input_eval :
    processVoxels [⟨0, 0, 0, "#ff0000"⟩] = .error .attributeError := rfl

end BrickByBrick
